import Mathlib

/-!
A verification development for the Synapse clinical-guardian frontend core:
the audio capture pipeline, the playback accumulator, the WebSocket
transport/reconnection hook, and the session-page state handling are embedded
as executable Lean definitions, and the specified properties are settled as
theorems about those definitions.

Sample values are modelled as rationals: every arithmetic operation the
embedded functions perform on the inputs considered here (ratios of integer
sample rates, clamping, scaling by integer bounds, floor/round) is exact in
IEEE double precision, so the rational model agrees with the JavaScript
evaluation.
-/

namespace Synapse

/-! ## Audio capture pipeline (useAudioRecorder)

`downsampleFloat32` and `float32ToInt16` are the two pure helpers of the
recorder hook; `stopRecording` is its teardown routine, modelled with
explicit step-failure semantics (a throwing statement aborts the rest of the
function, since the source has no try/catch). -/

/-- JavaScript `Math.round`: round half away from zero; for the non-negative
arguments used here this is `⌊q + 1/2⌋`. -/
def jsRound (q : ℚ) : ℤ := ⌊q + 1/2⌋

/-- Loop body of `downsampleFloat32`: output sample `i` is linearly
interpolated between the two neighbouring source samples around
`i * ratio`. -/
def interpSample (buffer : List ℚ) (ratio : ℚ) (i : Nat) : ℚ :=
  let srcIndex : ℚ := (i : ℚ) * ratio
  let low := (⌊srcIndex⌋).toNat
  let high := min (low + 1) (buffer.length - 1)
  let frac : ℚ := srcIndex - (low : ℚ)
  buffer.getD low 0 * (1 - frac) + buffer.getD high 0 * frac

/-- Embedding of `downsampleFloat32(buffer, srcRate, dstRate)`:
if `srcRate === dstRate` return the buffer; otherwise build an output of
`Math.round(buffer.length / ratio)` samples via `interpSample`. -/
def downsampleFloat32 (buffer : List ℚ) (srcRate dstRate : ℚ) : List ℚ :=
  if srcRate = dstRate then buffer
  else
    let ratio := srcRate / dstRate
    let newLength := (jsRound ((buffer.length : ℚ) / ratio)).toNat
    (List.range newLength).map (interpSample buffer ratio)

/-- The clamp `Math.max(-1, Math.min(1, s))` from `float32ToInt16`. -/
def clampUnit (s : ℚ) : ℚ := max (-1) (min 1 s)

/-- ECMAScript `ToInt16` conversion performed by an `Int16Array` store:
truncate toward zero, reduce modulo 2^16, reinterpret into [-32768, 32767]. -/
def toInt16 (q : ℚ) : ℤ :=
  let t : ℤ := if 0 ≤ q then ⌊q⌋ else ⌈q⌉
  let m := t % 65536
  if m < 32768 then m else m - 65536

/-- One sample of `float32ToInt16`: clamp to [-1, 1], scale by `0x8000` when
negative and `0x7FFF` otherwise, then store into the `Int16Array`. -/
def quantizeSample (s : ℚ) : ℤ :=
  let c := clampUnit s
  toInt16 (if c < 0 then c * 32768 else c * 32767)

/-- Embedding of `float32ToInt16`: samplewise quantization of the buffer. -/
def float32ToInt16 (l : List ℚ) : List ℤ := l.map quantizeSample

/-- The four teardown statements of `stopRecording`, in source order. -/
inductive TeardownStep
  | procDisconnect
  | sourceDisconnect
  | ctxClose
  | trackStop
deriving DecidableEq, Repr

/-- Which of the recorder's four resource refs are currently held
(`processorRef`, `sourceRef`, `audioCtxRef`, `streamRef` being non-null). -/
structure RecorderRefs where
  processor : Bool
  source : Bool
  audioCtx : Bool
  stream : Bool
deriving DecidableEq, Repr

/-- Embedding of `stopRecording`: four guarded release blocks run in
sequence with no exception handler, so a release call that throws (modelled
by `fails`) leaves its ref set and aborts the remaining blocks. Returns the
refs still held together with the step that threw, if any. -/
def stopRecording (fails : TeardownStep → Bool) (r : RecorderRefs) :
    RecorderRefs × Option TeardownStep :=
  if r.processor && fails .procDisconnect then (r, some .procDisconnect) else
  let r1 : RecorderRefs := { r with processor := false }
  if r1.source && fails .sourceDisconnect then (r1, some .sourceDisconnect) else
  let r2 : RecorderRefs := { r1 with source := false }
  if r2.audioCtx && fails .ctxClose then (r2, some .ctxClose) else
  let r3 : RecorderRefs := { r2 with audioCtx := false }
  if r3.stream && fails .trackStop then (r3, some .trackStop) else
  ({ r3 with stream := false }, none)

/-! ## Audio playback accumulator (useAudioPlayer, debounce variant)

Fragments are opaque byte lists. Time is in milliseconds. The hook state
holds the accumulated chunk list (`chunksRef`) and the pending flush timer
(`flushTimerRef`), modelled by its absolute fire time. -/

/-- The debounce quiet interval of the accumulator (`setTimeout(..., 500)`). -/
def FLUSH_QUIET_MS : Nat := 500

/-- Mutable refs of the accumulating audio player. -/
structure PlayerState where
  chunks : List (List Nat)
  flushTimer : Option Nat
deriving DecidableEq, Repr

/-- Embedding of `playAccumulated`: take the accumulated chunks, reset the
buffer to empty, and if any chunks were present return their concatenation
(the buffer handed to `decodeAudioData` and played). -/
def playAccumulated (st : PlayerState) : PlayerState × Option (List Nat) :=
  let cs := st.chunks
  let st1 : PlayerState := { st with chunks := [] }
  if cs.isEmpty then (st1, none) else (st1, some cs.flatten)

/-- Embedding of `playAudioChunk(audioData)` at wall time `t`: push the
fragment and (re)arm the flush timer for `t + 500` (the existing timer, if
any, is cleared — trailing-edge debounce). -/
def playAudioChunk (st : PlayerState) (t : Nat) (c : List Nat) : PlayerState :=
  { st with chunks := st.chunks ++ [c], flushTimer := some (t + FLUSH_QUIET_MS) }

/-- If the pending flush timer's fire time has passed by time `t`, it fires:
the accumulated buffer is flushed (timestamped with the fire time). -/
def fireTimerIfDue (st : PlayerState) (t : Nat) :
    PlayerState × Option (Nat × List Nat) :=
  match st.flushTimer with
  | some ft =>
    if ft ≤ t then
      let p := playAccumulated { st with flushTimer := none }
      (p.1, p.2.map (fun b => (ft, b)))
    else (st, none)
  | none => (st, none)

/-- Run the accumulator over a timestamped arrival sequence: before each
arrival any due timer fires, then the fragment is accumulated; after the last
arrival the remaining timer fires. Returns the final state and the list of
flushes (fire time, concatenated bytes) in order. -/
def runPlayer : PlayerState → List (Nat × List Nat) →
    PlayerState × List (Nat × List Nat)
  | st, [] =>
    match st.flushTimer with
    | some ft =>
      let p := playAccumulated { st with flushTimer := none }
      (p.1, p.2.toList.map (fun b => (ft, b)))
    | none => (st, [])
  | st, (t, c) :: rest =>
    let f := fireTimerIfDue st t
    let st2 := playAudioChunk f.1 t c
    let r := runPlayer st2 rest
    (r.1, f.2.toList ++ r.2)

/-- The player's initial state: empty buffer, no pending timer. -/
def initPlayer : PlayerState := ⟨[], none⟩

/-- Modelled from the spec: the trailing-edge-debounce flush schedule.
Fragments are grouped greedily — a fragment joins the current group when it
arrives strictly less than `gap` ms after the previous fragment; each group
flushes `gap` ms after its last fragment, concatenated in arrival order.
Helper carrying the current group's last arrival time and its chunks. -/
def debounceAux (gap : Nat) (last : Nat) (acc : List (List Nat)) :
    List (Nat × List Nat) → List (Nat × List Nat)
  | [] => [(last + gap, acc.flatten)]
  | (t, c) :: rest =>
    if t < last + gap then debounceAux gap t (acc ++ [c]) rest
    else (last + gap, acc.flatten) :: debounceAux gap t [c] rest

/-- Modelled from the spec: flushes of a fragment arrival sequence under a
trailing-edge debounce of `gap` ms. -/
def debounceSpec (gap : Nat) : List (Nat × List Nat) → List (Nat × List Nat)
  | [] => []
  | (t, c) :: rest => debounceAux gap t [c] rest

/-! ## Transport channel and reconnection manager (useWebSocket, reconnect variant)

The hook's mutable refs are `wsRef`, `reconnectAttemptsRef`,
`reconnectTimerRef` and `intentionalCloseRef`, plus the `isConnected` state.
Events are the hook's entry points together with the socket callbacks
(`onopen`/`onclose`) and the retry timer firing. Each step additionally
reports the retry delay it schedules, if any, so a run yields the full list
of scheduled reconnection delays. -/

/-- The `WebSocket.readyState` values. -/
inductive SocketReadyState
  | CONNECTING
  | OPEN
  | CLOSING
  | CLOSED
deriving DecidableEq, Repr

/-- Refs and state of the reconnecting `useWebSocket` hook. `reconnectTimer`
is `some d` when a retry is pending, scheduled with delay `d`. -/
structure WSHookState where
  ws : Option SocketReadyState
  isConnected : Bool
  reconnectAttempts : Nat
  reconnectTimer : Option Nat
  intentionalClose : Bool
deriving DecidableEq, Repr

/-- The constant `RECONNECT_BASE_DELAY = 1000` (1s, then 2s, 4s, 8s, 16s). -/
def RECONNECT_BASE_DELAY : Nat := 1000

/-- Events driving the hook: the public `connect`/`disconnect` calls, the
socket's `onopen`/`onclose` callbacks, the retry timer firing, and the
component unmount cleanup. -/
inductive WSEvent
  | connect
  | socketOpen
  | socketClose
  | timerFire
  | disconnect
  | unmount
deriving DecidableEq, Repr

/-- Body of `connect()`: return early when the current socket is already
OPEN; otherwise clear the intentional-close flag and install a fresh
connecting socket (an existing non-open socket is closed with its `onclose`
detached, so its close schedules nothing). -/
def wsConnect (st : WSHookState) : WSHookState :=
  if st.ws = some .OPEN then st
  else { st with intentionalClose := false, ws := some .CONNECTING }

/-- One event step of the hook. Returns the new state and the retry delay
scheduled by this step, if any. -/
def wsStep (maxReconnectAttempts : Nat) (st : WSHookState) :
    WSEvent → WSHookState × Option Nat
  | .connect => (wsConnect st, none)
  | .socketOpen =>
    ({ st with ws := some .OPEN, isConnected := true, reconnectAttempts := 0 },
      none)
  | .socketClose =>
    let st1 : WSHookState := { st with ws := some .CLOSED, isConnected := false }
    if ¬st1.intentionalClose ∧ st1.reconnectAttempts < maxReconnectAttempts then
      let delay := RECONNECT_BASE_DELAY * 2 ^ st1.reconnectAttempts
      ({ st1 with reconnectTimer := some delay }, some delay)
    else (st1, none)
  | .timerFire =>
    match st.reconnectTimer with
    | none => (st, none)
    | some _ =>
      let st1 : WSHookState :=
        { st with reconnectTimer := none,
                  reconnectAttempts := st.reconnectAttempts + 1 }
      (wsConnect st1, none)
  | .disconnect =>
    ({ st with intentionalClose := true, reconnectTimer := none,
               reconnectAttempts := 0, ws := none }, none)
  | .unmount =>
    ({ st with intentionalClose := true, reconnectTimer := none,
               reconnectAttempts := 0, ws := none }, none)

/-- Run the hook over an event list, collecting every scheduled retry delay
in order. -/
def wsRun (maxReconnectAttempts : Nat) (st : WSHookState) :
    List WSEvent → WSHookState × List Nat
  | [] => (st, [])
  | e :: rest =>
    let p := wsStep maxReconnectAttempts st e
    let r := wsRun maxReconnectAttempts p.1 rest
    (r.1, p.2.toList ++ r.2)

/-- A run of `n` consecutive unintentional close/retry cycles: each cycle is the
socket closing followed by the pending retry timer firing (the reconnection
attempt). -/
def retryCycles : Nat → List WSEvent
  | 0 => []
  | n + 1 => WSEvent.socketClose :: WSEvent.timerFire :: retryCycles n

/-! ## Outbound sends (useWebSocket sendMessage/sendAudio and commands) -/

/-- A frame put on the wire: `JSON.stringify` of a structured command
(modelled as its field list) or a binary audio buffer. -/
inductive OutboundFrame
  | jsonFrame (fields : List (String × String))
  | binaryFrame (data : List Nat)
deriving DecidableEq, Repr

/-- Embedding of `sendMessage`: transmit the JSON-encoded command iff the
socket exists and its `readyState` is OPEN; otherwise do nothing (no error,
no queueing — the payload is dropped). -/
def sendMessage (ws : Option SocketReadyState) (message : List (String × String)) :
    Option OutboundFrame :=
  match ws with
  | some rs => if rs = .OPEN then some (.jsonFrame message) else none
  | none => none

/-- Embedding of `sendAudio`: transmit the binary buffer iff the socket
exists and is OPEN; otherwise drop it silently. -/
def sendAudio (ws : Option SocketReadyState) (audioData : List Nat) :
    Option OutboundFrame :=
  match ws with
  | some rs => if rs = .OPEN then some (.binaryFrame audioData) else none
  | none => none

/-- Embedding of `sendTranscript(text, speaker)`, built on `sendMessage`. -/
def sendTranscript (ws : Option SocketReadyState) (text speaker : String) :
    Option OutboundFrame :=
  sendMessage ws [("type", "transcript"), ("text", text), ("speaker", speaker)]

/-- Embedding of `endSession()`, built on `sendMessage`. -/
def endSession (ws : Option SocketReadyState) : Option OutboundFrame :=
  sendMessage ws [("type", "end")]

/-- Embedding of `pauseSession()`, built on `sendMessage`. -/
def pauseSession (ws : Option SocketReadyState) : Option OutboundFrame :=
  sendMessage ws [("type", "pause")]

/-- Embedding of `resumeSession()`, built on `sendMessage`. -/
def resumeSession (ws : Option SocketReadyState) : Option OutboundFrame :=
  sendMessage ws [("type", "resume")]

/-- Embedding of `triggerSafetyCheck()`, built on `sendMessage`. -/
def triggerSafetyCheck (ws : Option SocketReadyState) : Option OutboundFrame :=
  sendMessage ws [("type", "check_safety")]

/-! ## Session page state (Home component)

The model embeds the component's `useState` cells, the
`handleWebSocketMessage` switch (clinical-intent variant), the REST
completion path `handleEndConsult`, and the elapsed-duration timer effect.
Ids the source builds from `Date.now()` are built from the ambient wall time
`now` passed to the handler. -/

/-- The `SOAPNote` record from the API client. -/
structure SOAPNote where
  subjective : String
  objective : String
  assessment : String
  plan : String
  icd10_codes : List String
  cpt_codes : List String
deriving DecidableEq, Repr

/-- The `BillingInfo` record from the API client. -/
structure BillingInfo where
  invoice_id : String
  amount : ℚ
  status : String
deriving DecidableEq, Repr

/-- The `EndConsultResponse` record from the API client. -/
structure EndConsultResponse where
  session_id : String
  soap_note : SOAPNote
  billing : BillingInfo
  duration_minutes : Nat
deriving DecidableEq, Repr

/-- A medication entry of a `clinical_intent` message. -/
structure ClinicalMed where
  name : String
  dosage : Option String
  action : Option String
deriving DecidableEq, Repr

/-- A procedure entry of a `clinical_intent` message. -/
structure ClinicalProc where
  name : String
  action : Option String
deriving DecidableEq, Repr

/-- A diagnosis entry of a `clinical_intent` message. -/
structure ClinicalDx where
  name : String
  icd10 : Option String
deriving DecidableEq, Repr

/-- The `intent` payload of a `clinical_intent` message. -/
structure ClinicalIntent where
  medications : List ClinicalMed
  procedures : List ClinicalProc
  diagnoses : List ClinicalDx
deriving DecidableEq, Repr

/-- Inbound WebSocket messages, discriminated by `type` as in the API
client's `WebSocketMessage` union. -/
inductive WSMessage
  | state_change (old_state new_state : String) (timestamp : Nat)
  | transcript (text : String) (timestamp : Nat)
  | transcript_added (text : String) (timestamp : Nat)
  | safety_alert (safety_level : String) (warning : Option String)
      (recommendation : Option String) (timestamp : Nat)
  | clinical_intent (intent : ClinicalIntent) (timestamp : Nat)
  | consult_ended (soap_note : SOAPNote) (timestamp : Nat)
  | interruption_start (text : Option String) (timestamp : Nat)
  | interruption_end (timestamp : Nat)
deriving DecidableEq, Repr

/-- A transcript panel entry. -/
structure TranscriptEntry where
  id : String
  text : String
  speaker : String
  timestamp : Nat
deriving DecidableEq, Repr

/-- A safety panel alert record. -/
structure SafetyAlertRec where
  id : String
  level : String
  message : String
  recommendation : Option String
  timestamp : Nat
deriving DecidableEq, Repr

/-- The Home component's state cells. -/
structure AppState where
  sessionId : Option String
  sessionState : String
  isPaused : Bool
  elapsedSeconds : Nat
  transcriptEntries : List TranscriptEntry
  safetyAlerts : List SafetyAlertRec
  currentSafetyLevel : String
  isInterrupting : Bool
  interruptionMessage : String
  clinicalIntent : Option ClinicalIntent
  sessionSummary : Option EndConsultResponse
  isRecording : Bool
deriving DecidableEq, Repr

/-- The component's initial state (the `useState` defaults). -/
def initAppState : AppState :=
  { sessionId := none
    sessionState := "IDLE"
    isPaused := false
    elapsedSeconds := 0
    transcriptEntries := []
    safetyAlerts := []
    currentSafetyLevel := "SAFE"
    isInterrupting := false
    interruptionMessage := ""
    clinicalIntent := none
    sessionSummary := none
    isRecording := false }

/-- The `[Detected] Medications: ...` system note text built by the
`clinical_intent` branch. -/
def medNamesText (meds : List ClinicalMed) : String :=
  String.intercalate ", "
    (meds.map (fun m =>
      m.name ++ (match m.dosage with | some d => " " ++ d | none => "")))

/-- Embedding of `handleWebSocketMessage` (the switch of the clinical-intent
page variant) at wall time `now`. -/
def handleWebSocketMessage (now : Nat) (st : AppState) : WSMessage → AppState
  | .state_change _ ns _ =>
    { st with
      sessionState := ns
      isPaused := if ns = "PAUSED" then true
                  else if ns = "LISTENING" then false
                  else st.isPaused
      isInterrupting := if ns = "INTERRUPTING" then true else st.isInterrupting }
  | .transcript text ts =>
    { st with transcriptEntries := st.transcriptEntries ++
        [{ id := "t-" ++ toString now, text := text, speaker := "doctor",
           timestamp := ts }] }
  | .transcript_added text ts =>
    { st with transcriptEntries := st.transcriptEntries ++
        [{ id := "t-" ++ toString now, text := text, speaker := "doctor",
           timestamp := ts }] }
  | .safety_alert level warning recommendation ts =>
    let alert : SafetyAlertRec :=
      { id := "sa-" ++ toString now
        level := level
        message := warning.getD "Safety check completed"
        recommendation := recommendation
        timestamp := ts }
    { st with safetyAlerts := alert :: st.safetyAlerts,
              currentSafetyLevel := level }
  | .clinical_intent intent ts =>
    let st1 : AppState := { st with clinicalIntent := some intent }
    if intent.medications.length > 0 then
      { st1 with transcriptEntries := st1.transcriptEntries ++
          [{ id := "intent-" ++ toString now
             text := "[Detected] Medications: " ++ medNamesText intent.medications
             speaker := "system", timestamp := ts }] }
    else st1
  | .consult_ended soap _ =>
    { st with
      sessionSummary := some
        { session_id := st.sessionId.getD ""
          soap_note := soap
          billing := { invoice_id := "pending", amount := 0, status := "pending" }
          duration_minutes := st.elapsedSeconds / 60 }
      sessionState := "COMPLETED" }
  | .interruption_start text ts =>
    { st with
      isInterrupting := true
      interruptionMessage := text.getD "Clinical alert detected!"
      transcriptEntries := st.transcriptEntries ++
        [{ id := "sys-" ++ toString now
           text := "[ALERT] " ++ (text.getD "undefined")
           speaker := "system", timestamp := ts }] }
  | .interruption_end _ => { st with isInterrupting := false }

/-- Embedding of the component-state effects of `handleEndConsult` when the
REST call succeeds with `resp`: stop recording, store the response as the
session summary, clear the session id and return to IDLE (the socket is
also disconnected, which acts on the `WSHookState` model above). A missing
session id makes the handler return early. -/
def handleEndConsult (resp : EndConsultResponse) (st : AppState) : AppState :=
  if st.sessionId.isNone then st
  else
    { st with
      isRecording := false
      sessionSummary := some resp
      sessionId := none
      sessionState := "IDLE" }

/-- One 1-second tick of the timer effect: the interval exists — and adds
exactly one second — iff a session id is set, the mirrored state is
LISTENING, and the session is not paused. -/
def timerTick (st : AppState) : AppState :=
  if st.sessionId.isSome ∧ st.sessionState = "LISTENING" ∧ st.isPaused = false
  then { st with elapsedSeconds := st.elapsedSeconds + 1 }
  else st

/-- Session-page actions interleaving timer ticks with inbound messages. -/
inductive UIAction
  | tick
  | wsMsg (now : Nat) (m : WSMessage)
deriving DecidableEq, Repr

/-- One session-page action step. -/
def uiStep (st : AppState) : UIAction → AppState
  | .tick => timerTick st
  | .wsMsg now m => handleWebSocketMessage now st m

/-- Run the session page over an action list. -/
def runUI (st : AppState) (as : List UIAction) : AppState := as.foldl uiStep st

/-- The number of ticks of an action list taken while the mirrored state is
LISTENING and not paused (the accruing ticks), threading the state. -/
def listeningTicks (st : AppState) : List UIAction → Nat
  | [] => 0
  | a :: rest =>
    (match a with
     | .tick =>
       if st.sessionState = "LISTENING" ∧ st.isPaused = false then 1 else 0
     | .wsMsg _ _ => 0) + listeningTicks (uiStep st a) rest

/-- The six session-state values the state machine recognizes. -/
def recognizedStates : List String :=
  ["IDLE", "LISTENING", "PAUSED", "PROCESSING", "INTERRUPTING", "COMPLETED"]

/-- Modelled from the spec: the mirrored state after a sequence of
`state_change` `new_state` values equals the last recognized value, with
unrecognized values ignored. -/
def specMirroredState (init : String) : List String → String
  | [] => init
  | ns :: rest =>
    specMirroredState (if ns ∈ recognizedStates then ns else init) rest

/-- Step-failure predicate making exactly the first teardown statement of
`stopRecording` throw. -/
def failProcOnly : TeardownStep → Bool
  | .procDisconnect => true
  | _ => false

/-- A concrete SOAP note for counterexamples and witnesses. -/
def demoSOAP : SOAPNote := ⟨"s", "o", "a", "p", [], []⟩

/-- A concrete REST end-consult response. -/
def demoResp : EndConsultResponse := ⟨"s1", demoSOAP, ⟨"INV-1", 100, "paid"⟩, 5⟩

/-- A session-page state with an active session in LISTENING. -/
def demoActive : AppState :=
  { initAppState with sessionId := some "s1", sessionState := "LISTENING" }

/-! # Theorems -/

/-! ## Resampling (claim C7) -/

lemma interpSample_ratio_three (b : List ℚ) (i : Nat) :
    interpSample b 3 i = b.getD (3 * i) 0 := by
  have hcast : ((i : ℚ) * 3) = ((3 * i : ℕ) : ℚ) := by push_cast; ring
  have hfloor : ⌊(i : ℚ) * 3⌋ = (3 * i : ℤ) := by
    rw [hcast]
    exact_mod_cast Int.floor_natCast (3 * i)
  simp only [interpSample, hfloor]
  have htoNat : ((3 * i : ℤ) : ℤ).toNat = 3 * i := by
    exact_mod_cast Int.toNat_natCast (3 * i)
  rw [htoNat]
  have hfrac : (i : ℚ) * 3 - ((3 * i : ℕ) : ℚ) = 0 := by push_cast; ring
  rw [hfrac]
  ring

/-- C7: resampling at an unchanged rate is the identity; resampling
48000 Hz → 16000 Hz yields `Math.round(L / 3)` samples, and (since the ratio
is exactly 3) the linear interpolation picks source sample `3 * i` for
output position `i`. -/
theorem downsample_identity_and_48k_16k (b : List ℚ) (r : ℚ) (i : Nat)
    (hi : i < (jsRound ((b.length : ℚ) / 3)).toNat) :
    downsampleFloat32 b r r = b ∧
    (downsampleFloat32 b 48000 16000).length =
      (jsRound ((b.length : ℚ) / 3)).toNat ∧
    (downsampleFloat32 b 48000 16000).getD i 0 = b.getD (3 * i) 0 := by
  have hne : (48000 : ℚ) ≠ 16000 := by norm_num
  have hratio : (48000 : ℚ) / 16000 = 3 := by norm_num
  refine ⟨by simp [downsampleFloat32], ?_, ?_⟩
  · rw [downsampleFloat32, if_neg hne]
    simp [hratio]
  · rw [downsampleFloat32, if_neg hne]
    simp only [hratio]
    rw [List.getD_eq_getElem?_getD, List.getElem?_map, List.getElem?_range hi]
    simp [interpSample_ratio_three]

/-- Witness for C7 at a concrete seven-sample buffer. -/
theorem downsample_identity_and_48k_16k_witness :
    downsampleFloat32 [1, 2, 3, 4, 5, 6, 7] 44100 44100 = [1, 2, 3, 4, 5, 6, 7] ∧
    (downsampleFloat32 [1, 2, 3, 4, 5, 6, 7] 48000 16000).length = 2 ∧
    (downsampleFloat32 [1, 2, 3, 4, 5, 6, 7] 48000 16000).getD 1 0 = 4 := by
  have hlen :
      (jsRound ((([1, 2, 3, 4, 5, 6, 7] : List ℚ).length : ℚ) / 3)).toNat = 2 := by
    norm_num [jsRound]
    rfl
  have h := downsample_identity_and_48k_16k [1, 2, 3, 4, 5, 6, 7] 44100 1
    (by rw [hlen]; norm_num)
  refine ⟨h.1, h.2.1.trans hlen, h.2.2.trans ?_⟩
  norm_num

/-! ## 16-bit quantization (claim C8) -/

lemma int16_store_eq_self (t : ℤ) (h1 : -32768 ≤ t) (h2 : t ≤ 32767) :
    (if t % 65536 < 32768 then t % 65536 else t % 65536 - 65536) = t := by
  omega

lemma clampUnit_mem (s : ℚ) : -1 ≤ clampUnit s ∧ clampUnit s ≤ 1 :=
  ⟨le_max_left _ _, max_le (by norm_num) (min_le_left _ _)⟩

lemma quantizeSample_eq_and_bounds (s : ℚ) :
    quantizeSample s =
      (if clampUnit s < 0 then ⌈clampUnit s * 32768⌉ else ⌊clampUnit s * 32767⌋) ∧
    -32768 ≤ quantizeSample s ∧ quantizeSample s ≤ 32767 := by
  obtain ⟨hc1, hc2⟩ := clampUnit_mem s
  by_cases hneg : clampUnit s < 0
  · have hv1 : (-32768 : ℚ) ≤ clampUnit s * 32768 := by nlinarith
    have hv2 : clampUnit s * 32768 < 0 := by nlinarith
    have ht1 : (-32768 : ℤ) ≤ ⌈clampUnit s * 32768⌉ := by
      have : ((-32768 : ℤ) : ℚ) ≤ clampUnit s * 32768 := by exact_mod_cast hv1
      calc (-32768 : ℤ) = ⌈((-32768 : ℤ) : ℚ)⌉ := (Int.ceil_intCast _).symm
        _ ≤ ⌈clampUnit s * 32768⌉ := Int.ceil_le_ceil this
    have ht2 : ⌈clampUnit s * 32768⌉ ≤ 0 := by
      rw [show (0 : ℤ) = ((0 : ℕ) : ℤ) by norm_num]
      exact Int.ceil_le.mpr (by exact_mod_cast hv2.le)
    have hq : quantizeSample s = ⌈clampUnit s * 32768⌉ := by
      rw [quantizeSample, if_pos hneg, toInt16, if_neg (not_le.mpr hv2)]
      exact int16_store_eq_self _ ht1 (by omega)
    exact ⟨by rw [hq, if_pos hneg], by rw [hq]; exact ht1, by rw [hq]; omega⟩
  · have hpos : (0 : ℚ) ≤ clampUnit s := not_lt.mp hneg
    have hv1 : (0 : ℚ) ≤ clampUnit s * 32767 := by nlinarith
    have hv2 : clampUnit s * 32767 ≤ 32767 := by nlinarith
    have ht1 : (0 : ℤ) ≤ ⌊clampUnit s * 32767⌋ := Int.floor_nonneg.mpr hv1
    have ht2 : ⌊clampUnit s * 32767⌋ ≤ 32767 := by
      have := (Int.floor_le (clampUnit s * 32767)).trans hv2
      exact_mod_cast this
    have hq : quantizeSample s = ⌊clampUnit s * 32767⌋ := by
      rw [quantizeSample, if_neg hneg, toInt16, if_pos hv1]
      exact int16_store_eq_self _ (by omega) ht2
    exact ⟨by rw [hq, if_neg hneg], by rw [hq]; omega, by rw [hq]; exact ht2⟩

/-- C8: every output of `float32ToInt16` lies in the Int16 range
[-32768, 32767], and per sample the stored value is exactly the truncation
of the clamped input scaled by 0x8000 (negative) or 0x7FFF (non-negative) —
the `Int16Array` store performs no modular wrap at either end. -/
theorem float32ToInt16_inRange (l : List ℚ) (x : ℤ)
    (hx : x ∈ float32ToInt16 l) :
    (-32768 ≤ x ∧ x ≤ 32767) ∧
    ∀ s : ℚ, quantizeSample s =
      if clampUnit s < 0 then ⌈clampUnit s * 32768⌉
      else ⌊clampUnit s * 32767⌋ := by
  constructor
  · obtain ⟨s, _, rfl⟩ := List.mem_map.mp hx
    exact (quantizeSample_eq_and_bounds s).2
  · exact fun s => (quantizeSample_eq_and_bounds s).1

/-- Witness for C8 at a concrete buffer containing an out-of-range negative
sample, an out-of-range positive sample, and a half-scale sample. -/
theorem float32ToInt16_inRange_witness :
    ((-32768 : ℤ) ∈ float32ToInt16 [2, -2, 1/2]) ∧
    ((-32768 ≤ (-32768 : ℤ) ∧ (-32768 : ℤ) ≤ 32767) ∧
     ∀ s : ℚ, quantizeSample s =
       if clampUnit s < 0 then ⌈clampUnit s * 32768⌉
       else ⌊clampUnit s * 32767⌋) := by
  have hc : clampUnit (-2 : ℚ) = -1 := by norm_num [clampUnit]
  have h := (quantizeSample_eq_and_bounds (-2)).1
  rw [hc] at h
  norm_num at h
  have h2 : (⌈(-32768 : ℚ)⌉ : ℤ) = -32768 := by
    rw [show ((-32768 : ℚ)) = ((-32768 : ℤ) : ℚ) by norm_num]
    exact Int.ceil_intCast _
  rw [h2] at h
  have hx : (-32768 : ℤ) ∈ float32ToInt16 [2, -2, 1/2] := by
    rw [float32ToInt16, ← h]
    exact List.mem_map_of_mem _ (by norm_num)
  exact ⟨hx, float32ToInt16_inRange [2, -2, 1/2] (-32768) hx⟩

/-! ## Capture teardown (claim C9) -/

/-- C9 counterexample: with every resource held, a throw in the very first
release statement (the processing stage's disconnect) aborts `stopRecording`
before any other statement runs — in particular the device track
(`stream`) is NOT stopped, contradicting the best-effort release claim. -/
theorem stopRecording_abort_counterexample :
    stopRecording failProcOnly ⟨true, true, true, true⟩ =
      (⟨true, true, true, true⟩, some .procDisconnect) ∧
    (stopRecording failProcOnly ⟨true, true, true, true⟩).1.stream = true := by
  exact ⟨rfl, rfl⟩

/-- C9 amended: `stopRecording` releases every stage (processing stage,
source stage, audio context, device track) when no release step throws;
there is no per-step exception guard, so a throwing step leaves the
remaining resources held. -/
theorem stopRecording_releases_all_when_no_failure
    (fails : TeardownStep → Bool) (r : RecorderRefs)
    (h : ∀ s, fails s = false) :
    stopRecording fails r = (⟨false, false, false, false⟩, none) := by
  simp [stopRecording, h]

/-- Witness for the amended C9 at a fully-held state with no failing step. -/
theorem stopRecording_releases_all_witness :
    stopRecording (fun _ => false) ⟨true, true, true, true⟩ =
      (⟨false, false, false, false⟩, none) :=
  stopRecording_releases_all_when_no_failure (fun _ => false)
    ⟨true, true, true, true⟩ (fun _ => rfl)

/-! ## Playback accumulator debounce (claim C5) -/

lemma runPlayer_aux (rest : List (Nat × List Nat)) :
    ∀ (last : Nat) (acc : List (List Nat)), acc ≠ [] →
      runPlayer ⟨acc, some (last + FLUSH_QUIET_MS)⟩ rest =
        (initPlayer, debounceAux FLUSH_QUIET_MS last acc rest) := by
  induction rest with
  | nil =>
    intro last acc hacc
    simp [runPlayer, playAccumulated, debounceAux, initPlayer,
      List.isEmpty_eq_true, hacc]
  | cons hd tl ih =>
    intro last acc hacc
    obtain ⟨t, c⟩ := hd
    by_cases hdue : last + FLUSH_QUIET_MS ≤ t
    · have hfire :
          fireTimerIfDue ⟨acc, some (last + FLUSH_QUIET_MS)⟩ t =
            (initPlayer, some (last + FLUSH_QUIET_MS, acc.flatten)) := by
        simp [fireTimerIfDue, hdue, playAccumulated, initPlayer,
          List.isEmpty_eq_true, hacc]
      have hpush : playAudioChunk initPlayer t c = ⟨[c], some (t + FLUSH_QUIET_MS)⟩ := by
        simp [playAudioChunk, initPlayer]
      rw [runPlayer, hfire]
      simp only [hpush]
      rw [ih t [c] (by simp)]
      rw [debounceAux, if_neg (by omega)]
      simp
    · have hlt : t < last + FLUSH_QUIET_MS := by omega
      have hfire :
          fireTimerIfDue ⟨acc, some (last + FLUSH_QUIET_MS)⟩ t =
            (⟨acc, some (last + FLUSH_QUIET_MS)⟩, none) := by
        simp [fireTimerIfDue, hdue]
      have hpush :
          playAudioChunk ⟨acc, some (last + FLUSH_QUIET_MS)⟩ t c =
            ⟨acc ++ [c], some (t + FLUSH_QUIET_MS)⟩ := by
        simp [playAudioChunk]
      rw [runPlayer, hfire]
      simp only [hpush]
      rw [ih t (acc ++ [c]) (by simp)]
      rw [debounceAux, if_pos hlt]
      simp

/-- C5: over any timestamped fragment arrival sequence the accumulator flushes
exactly per the trailing-edge 500 ms debounce schedule (`debounceSpec`):
fragments arriving within 500 ms of the previous one merge into the current
flush, a 500 ms or longer gap separates flushes, each flush concatenates its
group in arrival order, and the run ends with an empty buffer and no pending
timer. In particular fragments 100 ms apart merge into one flush and
fragments 600 ms apart produce two flushes. -/
theorem runPlayer_eq_debounceSpec (arrivals : List (Nat × List Nat)) :
    runPlayer initPlayer arrivals =
      (initPlayer, debounceSpec FLUSH_QUIET_MS arrivals) := by
  cases arrivals with
  | nil => rfl
  | cons hd tl =>
    obtain ⟨t, c⟩ := hd
    have hfire : fireTimerIfDue initPlayer t = (initPlayer, none) := by
      simp [fireTimerIfDue, initPlayer]
    have hpush : playAudioChunk initPlayer t c = ⟨[c], some (t + FLUSH_QUIET_MS)⟩ := by
      simp [playAudioChunk, initPlayer]
    rw [runPlayer, hfire]
    simp only [hpush]
    rw [runPlayer_aux tl t [c] (by simp)]
    simp [debounceSpec]

example :
    runPlayer initPlayer [(0, [1]), (100, [2])] = (initPlayer, [(600, [1, 2])]) := by
  decide

example :
    runPlayer initPlayer [(0, [1]), (600, [2])] =
      (initPlayer, [(500, [1]), (1100, [2])]) := by
  decide

/-! ## Reconnection backoff (claim C2) -/

lemma wsRun_retryCycles (maxA : Nat) (n : Nat) :
    ∀ (ws : Option SocketReadyState) (ic : Bool) (a : Nat) (rt : Option Nat),
      (wsRun maxA ⟨ws, ic, a, rt, false⟩ (retryCycles n)).2 =
        (List.range (min n (maxA - a))).map
          (fun i => RECONNECT_BASE_DELAY * 2 ^ (a + i)) := by
  induction n with
  | zero => intro ws ic a rt; simp [retryCycles, wsRun]
  | succ n ih =>
    intro ws ic a rt
    by_cases ha : a < maxA
    · have hclose :
          wsStep maxA ⟨ws, ic, a, rt, false⟩ .socketClose =
            (⟨some .CLOSED, false, a, some (RECONNECT_BASE_DELAY * 2 ^ a), false⟩,
              some (RECONNECT_BASE_DELAY * 2 ^ a)) := by
        simp [wsStep, ha]
      have hfire :
          wsStep maxA
            ⟨some .CLOSED, false, a, some (RECONNECT_BASE_DELAY * 2 ^ a), false⟩
            .timerFire =
            (⟨some .CONNECTING, false, a + 1, none, false⟩, none) := by
        simp [wsStep, wsConnect]
      simp only [retryCycles, wsRun, hclose, hfire]
      rw [ih]
      have hmin : min (n + 1) (maxA - a) = min n (maxA - (a + 1)) + 1 := by omega
      rw [hmin, List.range_succ_eq_map]
      simp only [List.map_cons, List.map_map, Option.toList_some,
        List.cons_append, List.nil_append]
      refine congrArg₂ _ (by ring_nf) ?_
      apply List.map_congr_left
      intro x _
      simp only [Function.comp_apply, Nat.succ_eq_add_one]
      ring
    · have hclose :
          wsStep maxA ⟨ws, ic, a, rt, false⟩ .socketClose =
            (⟨some .CLOSED, false, a, rt, false⟩, none) := by
        simp [wsStep, ha]
      have h2 : min (n + 1) (maxA - a) = 0 := by omega
      cases rt with
      | none =>
        have hfire :
            wsStep maxA ⟨some .CLOSED, false, a, none, false⟩ .timerFire =
              (⟨some .CLOSED, false, a, none, false⟩, none) := by
          simp [wsStep]
        simp only [retryCycles, wsRun, hclose, hfire]
        rw [ih]
        have h1 : min n (maxA - a) = 0 := by omega
        simp [h1, h2]
      | some d =>
        have hfire :
            wsStep maxA ⟨some .CLOSED, false, a, some d, false⟩ .timerFire =
              (⟨some .CONNECTING, false, a + 1, none, false⟩, none) := by
          simp [wsStep, wsConnect]
        simp only [retryCycles, wsRun, hclose, hfire]
        rw [ih]
        have h1 : min n (maxA - (a + 1)) = 0 := by omega
        simp [h1, h2]

/-- C2: starting from a freshly-opened connection (attempt counter 0, close
not intentional), `N` consecutive unintentional close/retry cycles schedule
exactly the delays `base * 2^(k)` for `k = 0 .. min N max - 1` — so the Nth
reconnection attempt (N ≤ max) is scheduled after `base * 2^(N-1)` and no
attempt is scheduled once the counter reaches the configured maximum.
Moreover a successful open from ANY hook state — in particular one whose
attempt counter is nonzero after failed retries — resets the attempt counter
to 0, and a subsequent run of unintentional close/retry cycles schedules the
backoff again from `base * 2^0`. -/
theorem reconnect_backoff_schedule (maxA n : Nat) (st : WSHookState)
    (h0 : st.reconnectAttempts = 0) (hI : st.intentionalClose = false) :
    (wsRun maxA st (retryCycles n)).2 =
      (List.range (min n maxA)).map (fun i => RECONNECT_BASE_DELAY * 2 ^ i) ∧
    (∀ s : WSHookState, (wsStep maxA s .socketOpen).1.reconnectAttempts = 0) ∧
    (∀ s : WSHookState, s.intentionalClose = false →
      (wsRun maxA (wsStep maxA s .socketOpen).1 (retryCycles n)).2 =
        (List.range (min n maxA)).map
          (fun i => RECONNECT_BASE_DELAY * 2 ^ i)) := by
  obtain ⟨ws, ic, ra, rt, int⟩ := st
  simp only at h0 hI
  subst h0 hI
  refine ⟨?_, ?_, ?_⟩
  · rw [wsRun_retryCycles maxA n ws ic 0 rt]
    simp
  · intro s
    rfl
  · intro s hsI
    obtain ⟨ws2, ic2, ra2, rt2, int2⟩ := s
    simp only at hsI
    subst hsI
    have hopen :
        (wsStep maxA ⟨ws2, ic2, ra2, rt2, false⟩ .socketOpen).1 =
          ⟨some .OPEN, true, 0, rt2, false⟩ := rfl
    rw [hopen, wsRun_retryCycles maxA n (some .OPEN) true 0 rt2]
    simp

/-- Witness for C2: seven close/retry cycles with a five-attempt cap
schedule exactly the five delays 1s, 2s, 4s, 8s, 16s; an open at attempt
counter 3 (with a stale pending timer) resets the counter to 0, and the
cycles after that open schedule the same five delays starting again at
1s. -/
theorem reconnect_backoff_schedule_witness :
    (wsRun 5 ⟨some .OPEN, true, 0, none, false⟩ (retryCycles 7)).2 =
      [1000, 2000, 4000, 8000, 16000] ∧
    (wsStep 5 (⟨some .CLOSED, false, 3, some 8000, false⟩ : WSHookState)
      .socketOpen).1.reconnectAttempts = 0 ∧
    (wsRun 5 (wsStep 5 (⟨some .CLOSED, false, 3, some 8000, false⟩ : WSHookState)
        .socketOpen).1 (retryCycles 7)).2 =
      [1000, 2000, 4000, 8000, 16000] := by
  have h := reconnect_backoff_schedule 5 7 ⟨some .OPEN, true, 0, none, false⟩
    rfl rfl
  refine ⟨h.1.trans (by decide), h.2.1 ⟨some .CLOSED, false, 3, some 8000, false⟩, ?_⟩
  exact (h.2.2 ⟨some .CLOSED, false, 3, some 8000, false⟩ rfl).trans (by decide)

/-! ## Intentional close (claim C3) -/

lemma wsStep_preserves_intentional (maxA : Nat) (st : WSHookState) (e : WSEvent)
    (he : e ≠ .connect) (hI : st.intentionalClose = true)
    (hT : st.reconnectTimer = none) :
    (wsStep maxA st e).2 = none ∧
    (wsStep maxA st e).1.intentionalClose = true ∧
    (wsStep maxA st e).1.reconnectTimer = none := by
  cases e with
  | connect => exact absurd rfl he
  | socketOpen => simp [wsStep, hI, hT]
  | socketClose => simp [wsStep, hI, hT]
  | timerFire => simp [wsStep, hT, hI]
  | disconnect => simp [wsStep]
  | unmount => simp [wsStep]

lemma wsRun_no_schedule_of_intentional (maxA : Nat) (evs : List WSEvent) :
    ∀ (st : WSHookState), st.intentionalClose = true →
      st.reconnectTimer = none → WSEvent.connect ∉ evs →
      (wsRun maxA st evs).2 = [] := by
  induction evs with
  | nil => intro st _ _ _; rfl
  | cons e rest ih =>
    intro st hI hT hmem
    have he : e ≠ .connect := fun h => hmem (by rw [h]; exact List.mem_cons_self _ _)
    have hrest : WSEvent.connect ∉ rest := fun h => hmem (List.mem_cons_of_mem _ h)
    obtain ⟨hnone, hI2, hT2⟩ := wsStep_preserves_intentional maxA st e he hI hT
    rw [wsRun]
    simp only [hnone, Option.toList_none, List.nil_append]
    exact ih _ hI2 hT2 hrest

/-- C3: `disconnect` (and the unmount cleanup) cancels any pending retry
timer, resets the attempt counter to 0, and marks the close intentional; from
that state no subsequent event sequence avoiding an explicit `connect` call —
in particular the close of the socket itself firing — ever schedules a
reconnection attempt. -/
theorem disconnect_suppresses_reconnect (maxA : Nat) (st : WSHookState)
    (evs : List WSEvent) (hc : WSEvent.connect ∉ evs) :
    ((wsStep maxA st .disconnect).1.reconnectTimer = none ∧
     (wsStep maxA st .disconnect).1.reconnectAttempts = 0 ∧
     (wsStep maxA st .disconnect).1.intentionalClose = true) ∧
    (wsRun maxA (wsStep maxA st .disconnect).1 evs).2 = [] ∧
    ((wsStep maxA st .unmount).1.reconnectTimer = none ∧
     (wsRun maxA (wsStep maxA st .unmount).1 evs).2 = []) := by
  refine ⟨⟨rfl, rfl, rfl⟩, ?_, rfl, ?_⟩
  · exact wsRun_no_schedule_of_intentional maxA evs _ rfl rfl hc
  · exact wsRun_no_schedule_of_intentional maxA evs _ rfl rfl hc

/-- Witness for C3: after disconnecting a state with a live pending retry
timer and three prior attempts, a close followed by a stale timer fire and
another close schedules nothing. -/
theorem disconnect_suppresses_reconnect_witness :
    (((wsStep 5 ⟨some .OPEN, true, 3, some 8000, false⟩ .disconnect).1.reconnectTimer
        = none ∧
      (wsStep 5 ⟨some .OPEN, true, 3, some 8000, false⟩
        .disconnect).1.reconnectAttempts = 0 ∧
      (wsStep 5 ⟨some .OPEN, true, 3, some 8000, false⟩
        .disconnect).1.intentionalClose = true) ∧
     (wsRun 5 (wsStep 5 ⟨some .OPEN, true, 3, some 8000, false⟩ .disconnect).1
        [.socketClose, .timerFire, .socketClose]).2 = [] ∧
     ((wsStep 5 ⟨some .OPEN, true, 3, some 8000, false⟩ .unmount).1.reconnectTimer
        = none ∧
      (wsRun 5 (wsStep 5 ⟨some .OPEN, true, 3, some 8000, false⟩ .unmount).1
        [.socketClose, .timerFire, .socketClose]).2 = [])) :=
  disconnect_suppresses_reconnect 5 ⟨some .OPEN, true, 3, some 8000, false⟩
    [.socketClose, .timerFire, .socketClose] (by decide)

/-! ## Silent drop of sends on a non-open socket (claim C10) -/

/-- C10: when the socket is absent or not OPEN, `sendMessage`, `sendAudio`,
and every command built on them put nothing on the wire — the payload is
silently discarded, no error is raised (the functions are total), and
nothing is queued. -/
theorem send_noop_when_not_open (ws : Option SocketReadyState)
    (message : List (String × String)) (audioData : List Nat)
    (text speaker : String)
    (h : ∀ rs, ws = some rs → rs ≠ .OPEN) :
    sendMessage ws message = none ∧ sendAudio ws audioData = none ∧
    sendTranscript ws text speaker = none ∧ endSession ws = none ∧
    pauseSession ws = none ∧ resumeSession ws = none ∧
    triggerSafetyCheck ws = none := by
  cases ws with
  | none =>
    simp [sendMessage, sendAudio, sendTranscript, endSession, pauseSession,
      resumeSession, triggerSafetyCheck]
  | some rs =>
    have hrs := h rs rfl
    simp [sendMessage, sendAudio, sendTranscript, endSession, pauseSession,
      resumeSession, triggerSafetyCheck, hrs]

/-- Witness for C10 at a CLOSED socket with concrete payloads. -/
theorem send_noop_when_not_open_witness :
    sendMessage (some .CLOSED) [("type", "end")] = none ∧
    sendAudio (some .CLOSED) [0, 1, 2] = none ∧
    sendTranscript (some .CLOSED) "hello" "doctor" = none ∧
    endSession (some .CLOSED) = none ∧
    pauseSession (some .CLOSED) = none ∧
    resumeSession (some .CLOSED) = none ∧
    triggerSafetyCheck (some .CLOSED) = none :=
  send_noop_when_not_open (some .CLOSED) [("type", "end")] [0, 1, 2]
    "hello" "doctor" (by intro rs hrs; cases hrs; decide)

/-! ## Mirrored session state (claim C1) -/

/-- C1 counterexample: after `state_change` to LISTENING followed by
`state_change` to the unrecognized value GARBAGE, the handler leaves the
mirrored state at GARBAGE — not at LISTENING, the last recognized value the
claim demands (the spec-modelled machine `specMirroredState` keeps
LISTENING). The handler performs no validation of `new_state`. -/
theorem state_change_unrecognized_counterexample :
    (([WSMessage.state_change "IDLE" "LISTENING" 1,
       WSMessage.state_change "LISTENING" "GARBAGE" 2]).foldl
        (handleWebSocketMessage 0) initAppState).sessionState = "GARBAGE" ∧
    specMirroredState initAppState.sessionState ["LISTENING", "GARBAGE"] =
      "LISTENING" ∧
    "GARBAGE" ∉ recognizedStates ∧ ("GARBAGE" : String) ≠ "LISTENING" := by
  refine ⟨rfl, by decide, by decide, by decide⟩

/-- C1 amended: the mirrored session state after processing any message
sequence whose last element is a `state_change` equals that event's
`new_state`, recognized or not — an unrecognized value is not ignored but
overwrites the last valid mirrored state. -/
theorem state_change_sets_last_new_state (now : Nat) (st : AppState)
    (msgs : List WSMessage) (o ns : String) (ts : Nat) :
    ((msgs ++ [WSMessage.state_change o ns ts]).foldl
        (handleWebSocketMessage now) st).sessionState = ns := by
  rw [List.foldl_append]
  rfl

/-! ## Completion paths (claim C4) -/

/-- C4 counterexample: from an active session, the in-band `consult_ended`
path ends at mirrored state COMPLETED with the session id retained, while
the REST end-consult path ends at IDLE with the session id cleared — the two
completion paths do not converge to the same externally observable terminal
state. -/
theorem completion_paths_diverge_counterexample :
    (handleWebSocketMessage 0 demoActive
      (.consult_ended demoSOAP 10)).sessionState = "COMPLETED" ∧
    (handleEndConsult demoResp demoActive).sessionState = "IDLE" ∧
    (handleWebSocketMessage 0 demoActive
      (.consult_ended demoSOAP 10)).sessionState ≠
      (handleEndConsult demoResp demoActive).sessionState ∧
    (handleWebSocketMessage 0 demoActive
      (.consult_ended demoSOAP 10)).sessionId = some "s1" ∧
    (handleEndConsult demoResp demoActive).sessionId = none := by
  refine ⟨rfl, by decide, by decide, rfl, by decide⟩

/-- C4 amended: both completion paths set a session summary (so the summary
modal shows either way), but the protocol path sets mirrored state COMPLETED
and retains the session id while the REST path sets IDLE and clears it; and
when both paths occur, the summary side effect fires a second time — the
REST response overwrites the protocol-path summary. -/
theorem completion_paths_observable_effects (now : Nat) (st : AppState)
    (soap : SOAPNote) (ts : Nat) (resp : EndConsultResponse) (sid : String)
    (h : st.sessionId = some sid) :
    (handleWebSocketMessage now st (.consult_ended soap ts)).sessionState =
      "COMPLETED" ∧
    (handleWebSocketMessage now st (.consult_ended soap ts)).sessionId =
      some sid ∧
    (handleWebSocketMessage now st
      (.consult_ended soap ts)).sessionSummary.isSome = true ∧
    (handleEndConsult resp st).sessionState = "IDLE" ∧
    (handleEndConsult resp st).sessionId = none ∧
    (handleEndConsult resp st).sessionSummary = some resp ∧
    (handleEndConsult resp (handleWebSocketMessage now st
      (.consult_ended soap ts))).sessionSummary = some resp := by
  refine ⟨rfl, h, rfl, ?_, ?_, ?_, ?_⟩
  · rw [handleEndConsult, if_neg (by simp [h])]
  · rw [handleEndConsult, if_neg (by simp [h])]
  · rw [handleEndConsult, if_neg (by simp [h])]
  · rw [handleEndConsult, if_neg (by simp [handleWebSocketMessage, h])]

/-- Witness for the amended C4 at the concrete active session. -/
theorem completion_paths_observable_effects_witness :
    (handleWebSocketMessage 0 demoActive
      (.consult_ended demoSOAP 10)).sessionState = "COMPLETED" ∧
    (handleWebSocketMessage 0 demoActive
      (.consult_ended demoSOAP 10)).sessionId = some "s1" ∧
    (handleWebSocketMessage 0 demoActive
      (.consult_ended demoSOAP 10)).sessionSummary.isSome = true ∧
    (handleEndConsult demoResp demoActive).sessionState = "IDLE" ∧
    (handleEndConsult demoResp demoActive).sessionId = none ∧
    (handleEndConsult demoResp demoActive).sessionSummary = some demoResp ∧
    (handleEndConsult demoResp (handleWebSocketMessage 0 demoActive
      (.consult_ended demoSOAP 10))).sessionSummary = some demoResp :=
  completion_paths_observable_effects 0 demoActive demoSOAP 10 demoResp "s1" rfl

/-! ## Elapsed-duration accrual (claim C6) -/

lemma handleWebSocketMessage_sessionId (now : Nat) (st : AppState)
    (m : WSMessage) : (handleWebSocketMessage now st m).sessionId = st.sessionId := by
  cases m
  case clinical_intent intent ts =>
    rw [handleWebSocketMessage]
    split <;> rfl
  all_goals rfl

lemma handleWebSocketMessage_elapsed (now : Nat) (st : AppState)
    (m : WSMessage) :
    (handleWebSocketMessage now st m).elapsedSeconds = st.elapsedSeconds := by
  cases m
  case clinical_intent intent ts =>
    rw [handleWebSocketMessage]
    split <;> rfl
  all_goals rfl

lemma uiStep_sessionId (st : AppState) (a : UIAction) :
    (uiStep st a).sessionId = st.sessionId := by
  cases a with
  | tick =>
    rw [uiStep, timerTick]
    split <;> rfl
  | wsMsg now m => exact handleWebSocketMessage_sessionId now st m

/-- C6: over any interleaving of 1-second timer ticks and inbound messages
during a session (the session id stays set — no action of the interleaving
changes it), the elapsed counter grows by exactly the number of ticks taken
while the mirrored state is LISTENING and not paused: it stops the moment
the mirrored state leaves LISTENING, resumes from its paused value when
LISTENING returns, and never advances by more than one second per tick. -/
theorem elapsed_accrues_only_while_listening (st : AppState)
    (as : List UIAction) (h : st.sessionId.isSome = true) :
    (runUI st as).elapsedSeconds = st.elapsedSeconds + listeningTicks st as := by
  induction as generalizing st with
  | nil => simp [runUI, listeningTicks]
  | cons a rest ih =>
    have h2 : (uiStep st a).sessionId.isSome = true := by
      rw [uiStep_sessionId]; exact h
    have hrun : runUI st (a :: rest) = runUI (uiStep st a) rest := rfl
    rw [hrun, ih (uiStep st a) h2]
    cases a with
    | tick =>
      have hLT : listeningTicks st (.tick :: rest) =
          (if st.sessionState = "LISTENING" ∧ st.isPaused = false then 1 else 0) +
            listeningTicks (uiStep st .tick) rest := rfl
      rw [hLT]
      have hstep : (uiStep st .tick).elapsedSeconds = st.elapsedSeconds +
          (if st.sessionState = "LISTENING" ∧ st.isPaused = false then 1
           else 0) := by
        show (timerTick st).elapsedSeconds = _
        rw [timerTick]
        by_cases hc : st.sessionState = "LISTENING" ∧ st.isPaused = false
        · rw [if_pos ⟨h, hc.1, hc.2⟩, if_pos hc]
        · rw [if_neg (fun hh => hc ⟨hh.2.1, hh.2.2⟩), if_neg hc]
          omega
      rw [hstep]
      omega
    | wsMsg now m =>
      have hLT : listeningTicks st (.wsMsg now m :: rest) =
          0 + listeningTicks (uiStep st (.wsMsg now m)) rest := rfl
      rw [hLT]
      have hstep : (uiStep st (.wsMsg now m)).elapsedSeconds =
          st.elapsedSeconds := handleWebSocketMessage_elapsed now st m
      rw [hstep]
      omega

/-- Witness for C6: from a LISTENING session, two ticks accrue, a tick under
PAUSED does not, and a tick after re-entering LISTENING resumes from the
paused value — total 3 seconds for this interleaving. -/
theorem elapsed_accrues_witness :
    (runUI demoActive
      [.tick, .tick, .wsMsg 5 (.state_change "LISTENING" "PAUSED" 5), .tick,
       .wsMsg 9 (.state_change "PAUSED" "LISTENING" 9), .tick]).elapsedSeconds =
      demoActive.elapsedSeconds + listeningTicks demoActive
        [.tick, .tick, .wsMsg 5 (.state_change "LISTENING" "PAUSED" 5), .tick,
         .wsMsg 9 (.state_change "PAUSED" "LISTENING" 9), .tick] ∧
    listeningTicks demoActive
        [.tick, .tick, .wsMsg 5 (.state_change "LISTENING" "PAUSED" 5), .tick,
         .wsMsg 9 (.state_change "PAUSED" "LISTENING" 9), .tick] = 3 :=
  ⟨elapsed_accrues_only_while_listening demoActive _ rfl, by decide⟩

end Synapse
